import Mathlib

/-!
Shallow embedding of
`modules/planning/lattice/trajectory_generation/lateral_trajectory_optimizer.cc`
(Apollo lattice planner, class `LateralTrajectoryOptimizer`).  IEEE doubles are
modelled as exact rationals.  Decision vectors and multiplier vectors are total
maps from indices to rationals; out-parameter arrays that the C++ callbacks fill
are rendered either as index functions (when each cell is written exactly once)
or as lists written in program order.
-/

/-- Modelled from the spec: the class `ConstantJerkTrajectory1d` from
`modules/planning/lattice/trajectory1d/constant_jerk_trajectory1d.h` is not
under `src/`; per the spec it is a pure closed-form single-segment kinematic
sample for a start state `(p0, v0, a0)`, a constant jerk and a segment
length `ds`. -/
structure ConstantJerkTrajectory1d where
  p0 : ℚ
  v0 : ℚ
  a0 : ℚ
  jerk : ℚ
  ds : ℚ

/-- Modelled from the spec: end velocity of the constant-jerk segment, the
standard polynomial `v(ds) = v0 + a0 ds + (1/2) jerk ds^2`. -/
def ConstantJerkTrajectory1d.end_velocity (t : ConstantJerkTrajectory1d) : ℚ :=
  t.v0 + t.a0 * t.ds + (1 / 2) * t.jerk * t.ds ^ 2

/-- Modelled from the spec: end position of the constant-jerk segment, the
standard polynomial `p(ds) = p0 + v0 ds + (1/2) a0 ds^2 + (1/6) jerk ds^3`. -/
def ConstantJerkTrajectory1d.end_position (t : ConstantJerkTrajectory1d) : ℚ :=
  t.p0 + t.v0 * t.ds + (1 / 2) * t.a0 * t.ds ^ 2 + (1 / 6) * t.jerk * t.ds ^ 3

/-- Modelled from the spec: `PiecewiseJerkTrajectory1d` is not under `src/`; per
the spec it is the frozen initial state plus an append-only ordered sequence of
segments, each a pair of a jerk value and a step length. -/
structure PiecewiseJerkTrajectory1d where
  d_init : ℚ
  d_prime_init : ℚ
  d_pprime_init : ℚ
  segments : List (ℚ × ℚ)

/-- `AppendSegment(jerk, delta_s)`: appends one segment, never removes or
reorders. -/
def PiecewiseJerkTrajectory1d.AppendSegment (tr : PiecewiseJerkTrajectory1d)
    (jerk delta_s : ℚ) : PiecewiseJerkTrajectory1d :=
  { tr with segments := tr.segments ++ [(jerk, delta_s)] }

/-- Terminal status of the external solver (`Ipopt::SolverReturn`), reduced to
the four-way taxonomy the spec uses for this component.  The solver is an
external collaborator; only the status value reaches this component. -/
inductive SolverReturn where
  | Converged
  | Infeasible
  | IterationLimit
  | OtherFailure

/-- Member state of `LateralTrajectoryOptimizer` (see the class members used in
`lateral_trajectory_optimizer.cc`).  All `double` members are rationals. -/
structure LateralTrajectoryOptimizer where
  num_of_points_ : ℕ
  num_of_variables_ : ℕ
  delta_s_ : ℚ
  d_bounds_ : List (ℚ × ℚ)
  w_d_ : ℚ
  w_d_prime_ : ℚ
  w_d_pprime_ : ℚ
  w_d_obs_ : ℚ
  d_init_ : ℚ
  d_prime_init_ : ℚ
  d_pprime_init_ : ℚ
  d_ppprime_max_ : ℚ
  opt_piecewise_trajectory_ : PiecewiseJerkTrajectory1d

/-- The constructor, source lines 31 to 50.  It seeds
`opt_piecewise_trajectory_` with the supplied initial state and assigns
`num_of_points_`, `num_of_variables_`, `delta_s_`, `d_bounds_` and the four
unit weights.  It contains no validation and no error path.  Members the
constructor body does not assign (notably `d_init_`, `d_prime_init_`,
`d_pprime_init_` and `d_ppprime_max_`) keep whatever value they held before the
body ran (in-class default or indeterminate); the parameter `pre` models those
pre-existing member values. -/
def LateralTrajectoryOptimizer.construct (pre : LateralTrajectoryOptimizer)
    (d_init d_prime_init d_pprime_init delta_s : ℚ)
    (d_bounds : List (ℚ × ℚ)) : LateralTrajectoryOptimizer :=
  { pre with
    opt_piecewise_trajectory_ :=
      { d_init := d_init
        d_prime_init := d_prime_init
        d_pprime_init := d_pprime_init
        segments := [] }
    num_of_points_ := d_bounds.length
    num_of_variables_ := 3 * d_bounds.length
    delta_s_ := delta_s
    d_bounds_ := d_bounds
    w_d_ := 1
    w_d_prime_ := 1
    w_d_pprime_ := 1
    w_d_obs_ := 1 }

/-- `get_nlp_info`, source lines 52 to 66: returns `(n, m, nnz_h_lag)` with
`n = 3 N`, `m = 3 N`, `nnz_h_lag = n`.  The `nnz_jac_g` out-parameter is left
unassigned by the source and the index style is the 0-based `C_STYLE`; both are
omitted here. -/
def LateralTrajectoryOptimizer.get_nlp_info (st : LateralTrajectoryOptimizer) :
    ℕ × ℕ × ℕ :=
  (st.num_of_points_ * 3, st.num_of_points_ * 3, st.num_of_points_ * 3)

/-- `get_bounds_info` variable lower bounds, source lines 71 to 92: cell `i` is
written once, with `d_bounds_[i].first` for `i < N` and the literal sentinel
`-10.0` (`LARGE_VALUE`) for the `d_prime` and `d_pprime` blocks. -/
def LateralTrajectoryOptimizer.x_lower (st : LateralTrajectoryOptimizer)
    (i : ℕ) : ℚ :=
  if i < st.num_of_points_ then (st.d_bounds_.getD i (0, 0)).1 else -10

/-- `get_bounds_info` variable upper bounds, source lines 71 to 92: cell `i` is
written once, with `d_bounds_[i].second` for `i < N` and the literal sentinel
`+10.0` for the `d_prime` and `d_pprime` blocks. -/
def LateralTrajectoryOptimizer.x_upper (st : LateralTrajectoryOptimizer)
    (i : ℕ) : ℚ :=
  if i < st.num_of_points_ then (st.d_bounds_.getD i (0, 0)).2 else 10

/-- `get_bounds_info` constraint lower bounds, source lines 94 to 123: rows
`i < N - 1` get `-d_ppprime_max_ * delta_s_`; every later row written by the
source (velocity rows, position rows and the three initial-state rows) gets
`0`. -/
def LateralTrajectoryOptimizer.g_lower (st : LateralTrajectoryOptimizer)
    (i : ℕ) : ℚ :=
  if i < st.num_of_points_ - 1 then -(st.d_ppprime_max_ * st.delta_s_) else 0

/-- `get_bounds_info` constraint upper bounds, source lines 94 to 123: rows
`i < N - 1` get `d_ppprime_max_ * delta_s_`; every later row written by the
source gets `0`. -/
def LateralTrajectoryOptimizer.g_upper (st : LateralTrajectoryOptimizer)
    (i : ℕ) : ℚ :=
  if i < st.num_of_points_ - 1 then st.d_ppprime_max_ * st.delta_s_ else 0

/-- `get_starting_point`, source lines 127 to 146: every cell is zeroed, then
`x[0] = d_init_`, `x[N] = d_prime_init_`, `x[2N] = d_pprime_init_` are written
in that order (rendered here as last write wins).  The source asserts that no
dual bounds and no multipliers are requested and writes none. -/
def LateralTrajectoryOptimizer.get_starting_point
    (st : LateralTrajectoryOptimizer) (i : ℕ) : ℚ :=
  if i = 2 * st.num_of_points_ then st.d_pprime_init_
  else if i = st.num_of_points_ then st.d_prime_init_
  else if i = 0 then st.d_init_
  else 0

/-- Corridor midpoint used by `eval_f` and `eval_grad_f`:
`(d_bounds_[i].first + d_bounds_[i].second) * 0.5`. -/
def LateralTrajectoryOptimizer.obs_center (st : LateralTrajectoryOptimizer)
    (i : ℕ) : ℚ :=
  ((st.d_bounds_.getD i (0, 0)).1 + (st.d_bounds_.getD i (0, 0)).2) * (1 / 2)

/-- `eval_f`, source lines 148 to 164: the objective accumulates, per station,
`d^2 w_d + d_prime^2 w_d_prime + d_pprime^2 w_d_pprime + dist^2 w_d_obs` with
`dist` the offset from the corridor midpoint. -/
def LateralTrajectoryOptimizer.eval_f (st : LateralTrajectoryOptimizer)
    (x : ℕ → ℚ) : ℚ :=
  ∑ i ∈ Finset.range st.num_of_points_,
    (x i ^ 2 * st.w_d_
      + x (st.num_of_points_ + i) ^ 2 * st.w_d_prime_
      + x (2 * st.num_of_points_ + i) ^ 2 * st.w_d_pprime_
      + (x i - st.obs_center i) ^ 2 * st.w_d_obs_)

/-- `eval_g`, source lines 185 to 216, as a map from constraint row to residual.
Rows `r < N - 1` hold the curvature-rate difference
`x[2N + r + 1] - x[2N + r]`.  Rows `N - 1 + i` and `2(N - 1) + i` for
`i < N - 1` hold the velocity and position continuity residuals computed by
direct simulation: the source builds a `ConstantJerkTrajectory1d` from the
start state of pair `i` with the implied jerk
`(x[2N + i + 1] - x[2N + i]) / delta_s_` and subtracts the recorded end state.
Rows `3(N - 1)` through `3(N - 1) + 2` hold the initial-state residuals. -/
def LateralTrajectoryOptimizer.eval_g (st : LateralTrajectoryOptimizer)
    (x : ℕ → ℚ) (r : ℕ) : ℚ :=
  if r < st.num_of_points_ - 1 then
    x (2 * st.num_of_points_ + r + 1) - x (2 * st.num_of_points_ + r)
  else if r < 2 * (st.num_of_points_ - 1) then
    (ConstantJerkTrajectory1d.mk
        (x (r - (st.num_of_points_ - 1)))
        (x (st.num_of_points_ + (r - (st.num_of_points_ - 1))))
        (x (2 * st.num_of_points_ + (r - (st.num_of_points_ - 1))))
        ((x (2 * st.num_of_points_ + (r - (st.num_of_points_ - 1)) + 1)
            - x (2 * st.num_of_points_ + (r - (st.num_of_points_ - 1))))
          / st.delta_s_)
        st.delta_s_).end_velocity
      - x (st.num_of_points_ + (r - (st.num_of_points_ - 1)) + 1)
  else if r < 3 * (st.num_of_points_ - 1) then
    (ConstantJerkTrajectory1d.mk
        (x (r - 2 * (st.num_of_points_ - 1)))
        (x (st.num_of_points_ + (r - 2 * (st.num_of_points_ - 1))))
        (x (2 * st.num_of_points_ + (r - 2 * (st.num_of_points_ - 1))))
        ((x (2 * st.num_of_points_ + (r - 2 * (st.num_of_points_ - 1)) + 1)
            - x (2 * st.num_of_points_ + (r - 2 * (st.num_of_points_ - 1))))
          / st.delta_s_)
        st.delta_s_).end_position
      - x (r - 2 * (st.num_of_points_ - 1) + 1)
  else if r = 3 * (st.num_of_points_ - 1) then x 0 - st.d_init_
  else if r = 3 * (st.num_of_points_ - 1) + 1 then
    x st.num_of_points_ - st.d_prime_init_
  else if r = 3 * (st.num_of_points_ - 1) + 2 then
    x (2 * st.num_of_points_) - st.d_pprime_init_
  else 0

/-- Structure phase of `eval_jac_g` (`values == NULL`), source lines 224 to 310,
as the list of `(iRow, jCol)` entries in write order: two entries per
curvature-rate row, four per velocity row, five per position row, then three
trailing entries.  Note that the source never increments `constraint_index`
between the three trailing initial-state entries (lines 296 to 308), so all
three carry the same row `3(N - 1)`. -/
def LateralTrajectoryOptimizer.jac_structure
    (st : LateralTrajectoryOptimizer) : List (ℕ × ℕ) :=
  ((List.range (st.num_of_points_ - 1)).flatMap fun i =>
    [(i, 2 * st.num_of_points_ + i), (i, 2 * st.num_of_points_ + i + 1)])
  ++ ((List.range (st.num_of_points_ - 1)).flatMap fun i =>
    [(st.num_of_points_ - 1 + i, st.num_of_points_ + i),
     (st.num_of_points_ - 1 + i, st.num_of_points_ + i + 1),
     (st.num_of_points_ - 1 + i, 2 * st.num_of_points_ + i),
     (st.num_of_points_ - 1 + i, 2 * st.num_of_points_ + i + 1)])
  ++ ((List.range (st.num_of_points_ - 1)).flatMap fun i =>
    [(2 * (st.num_of_points_ - 1) + i, i),
     (2 * (st.num_of_points_ - 1) + i, i + 1),
     (2 * (st.num_of_points_ - 1) + i, st.num_of_points_ + i),
     (2 * (st.num_of_points_ - 1) + i, 2 * st.num_of_points_ + i),
     (2 * (st.num_of_points_ - 1) + i, 2 * st.num_of_points_ + i + 1)])
  ++ [(3 * (st.num_of_points_ - 1), 0),
      (3 * (st.num_of_points_ - 1), st.num_of_points_),
      (3 * (st.num_of_points_ - 1), 2 * st.num_of_points_)]

/-- Value phase of `eval_jac_g` (`values != NULL`), source lines 311 to 377, as
the list of values in write order.  The branch reads `delta_s_` only and never
reads `x` (the `new_x` hook is an empty TODO), exactly as in the source:
`1, -1` per curvature-rate row, `1, -1, 0.5 ds, 0.5 ds` per velocity row,
`1, -1, ds, ds^2/3, ds^2/6` per position row, then `1, 1, 1`. -/
def LateralTrajectoryOptimizer.jac_values (st : LateralTrajectoryOptimizer)
    (x : ℕ → ℚ) : List ℚ :=
  ((List.range (st.num_of_points_ - 1)).flatMap fun _ => [1, -1])
  ++ ((List.range (st.num_of_points_ - 1)).flatMap fun _ =>
    [1, -1, (1 / 2) * st.delta_s_, (1 / 2) * st.delta_s_])
  ++ ((List.range (st.num_of_points_ - 1)).flatMap fun _ =>
    [1, -1, st.delta_s_, st.delta_s_ * st.delta_s_ / 3,
     st.delta_s_ * st.delta_s_ / 6])
  ++ [1, 1, 1]

/-- Structure phase of `eval_h`, source lines 384 to 388: the diagonal entries
`(i, i)` for `i < 3 N`. -/
def LateralTrajectoryOptimizer.eval_h_structure
    (st : LateralTrajectoryOptimizer) : List (ℕ × ℕ) :=
  (List.range (3 * st.num_of_points_)).map fun i => (i, i)

/-- Value phase of `eval_h`, source lines 389 to 397: the constant `4.0` for
`i < N` and `2.0` for `N <= i < 3 N`.  The source reads neither `x` nor
`obj_factor` nor `lambda`. -/
def LateralTrajectoryOptimizer.eval_h_values (st : LateralTrajectoryOptimizer)
    (x : ℕ → ℚ) (obj_factor : ℚ) (lam : ℕ → ℚ) : List ℚ :=
  (List.range (3 * st.num_of_points_)).map fun i =>
    if i < st.num_of_points_ then 4 else 2

/-- Finite difference of one `eval_g` residual in one coordinate direction with
unit step.  Every residual of `eval_g` is affine in `x`, so this equals the
exact partial derivative of row `r` with respect to variable `k`. -/
def LateralTrajectoryOptimizer.residualDiff (st : LateralTrajectoryOptimizer)
    (x : ℕ → ℚ) (r k : ℕ) : ℚ :=
  st.eval_g (Function.update x k (x k + 1)) r - st.eval_g x r

/-- `finalize_solution`, source lines 401 to 412: `offset` is set to `2 N` and
the loop over `i = 1 .. N - 1` appends, on every iteration, the segment with
jerk `(x[offset] - x[offset - 1]) / delta_s_` and length `delta_s_`.  The
source never changes `offset` inside the loop and ignores the terminal
`status` and every other solver output. -/
def LateralTrajectoryOptimizer.finalize_solution
    (st : LateralTrajectoryOptimizer) (status : SolverReturn) (x : ℕ → ℚ) :
    LateralTrajectoryOptimizer :=
  { st with
    opt_piecewise_trajectory_ :=
      (List.range (st.num_of_points_ - 1)).foldl
        (fun tr _ =>
          tr.AppendSegment
            ((x (st.num_of_points_ * 2) - x (st.num_of_points_ * 2 - 1))
              / st.delta_s_)
            st.delta_s_)
        st.opt_piecewise_trajectory_ }

/-- `GetOptimalTrajectory`, source lines 414 to 417: returns the accumulated
trajectory unconditionally. -/
def LateralTrajectoryOptimizer.GetOptimalTrajectory
    (st : LateralTrajectoryOptimizer) : PiecewiseJerkTrajectory1d :=
  st.opt_piecewise_trajectory_

/-- A pre-constructor member state: in-class defaults for the members the
constructor never assigns (`d_init_ = d_prime_init_ = d_pprime_init_ = 0`,
`d_ppprime_max_ = 2` as a sample jerk bound). -/
def pre0 : LateralTrajectoryOptimizer :=
  { num_of_points_ := 0
    num_of_variables_ := 0
    delta_s_ := 0
    d_bounds_ := []
    w_d_ := 0
    w_d_prime_ := 0
    w_d_pprime_ := 0
    w_d_obs_ := 0
    d_init_ := 0
    d_prime_init_ := 0
    d_pprime_init_ := 0
    d_ppprime_max_ := 2
    opt_piecewise_trajectory_ :=
      { d_init := 0, d_prime_init := 0, d_pprime_init := 0, segments := [] } }

/-- A concrete well-formed instance: `N = 2`, `delta_s = 1`, initial state
`(1, 2, 3)`, corridors `[(-1, 1), (0, 2)]`. -/
def st2 : LateralTrajectoryOptimizer :=
  pre0.construct 1 2 3 1 [(-1, 1), (0, 2)]

/-- A concrete malformed construction: a single corridor pair (fewer than two
stations), negative step length, and an inverted pair with lower `1` above
upper `-1`. -/
def stBad : LateralTrajectoryOptimizer :=
  pre0.construct 0 0 0 (-1) [(1, -1)]

/-- A concrete decision vector, `x_k = k`. -/
def xw : ℕ → ℚ := fun k => (k : ℚ)

/-- A concrete terminal solution vector for `N = 2`:
`(d, d_prime, d_pprime) = ((0, 0), (0, 3), (5, 9))`. -/
def xC2 : ℕ → ℚ := fun k => ([0, 0, 0, 3, 5, 9] : List ℚ).getD k 0

theorem length_foldl_AppendSegment (l : List ℕ) (tr : PiecewiseJerkTrajectory1d)
    (j d : ℚ) :
    ((l.foldl (fun t _ => t.AppendSegment j d) tr).segments).length
      = tr.segments.length + l.length := by
  induction l generalizing tr with
  | nil => simp
  | cons a as ih =>
      rw [List.foldl_cons, ih]
      simp only [PiecewiseJerkTrajectory1d.AppendSegment, List.length_append,
        List.length_cons, List.length_nil]
      omega

/-- C7: the value phase of `eval_jac_g` writes identical value arrays at any two
decision vectors: the source value branch reads only `delta_s_` and
`num_of_points_`, never `x`. -/
theorem C7_jac_constant (st : LateralTrajectoryOptimizer) (x1 x2 : ℕ → ℚ) :
    st.jac_values x1 = st.jac_values x2 := rfl

/-- C4 counterexample: constructing with one corridor pair (fewer than two),
step length `-1` (non-positive) and the inverted pair `(1, -1)` completes
normally: the constructor, source lines 31 to 50, contains no validation and no
error path, so the malformed instance is built and proceeds to serve the
solve-time callbacks, reporting sizes `n = m = 3` and the inverted variable
bounds `x_lower 0 = 1 > x_upper 0 = -1`.  This falsifies the claim that such
construction fails immediately. -/
theorem C4_counterexample :
    stBad.num_of_points_ = 1
    ∧ stBad.delta_s_ = -1
    ∧ stBad.get_nlp_info = (3, 3, 3)
    ∧ stBad.x_lower 0 = 1
    ∧ stBad.x_upper 0 = -1
    ∧ ¬ ((1 : ℚ) ≤ -1) := by
  refine ⟨rfl, rfl, rfl, ?_, ?_, by norm_num⟩ <;>
    simp [stBad, pre0, LateralTrajectoryOptimizer.construct,
      LateralTrajectoryOptimizer.x_lower, LateralTrajectoryOptimizer.x_upper]

/-- C4 amended: construction performs no input validation.  For every input,
malformed or not, the constructor completes and returns an instance whose
member state is assigned from the arguments (station count from the corridor
list length, the step length and corridor list as given, the four weights set
to one), and that instance serves `get_nlp_info` with sizes derived from the
possibly malformed corridor count.  Errors, if any, can only surface at solve
time. -/
theorem C4_amended (pre : LateralTrajectoryOptimizer) (d0 d0p d0pp ds : ℚ)
    (bnds : List (ℚ × ℚ)) :
    (pre.construct d0 d0p d0pp ds bnds).num_of_points_ = bnds.length
    ∧ (pre.construct d0 d0p d0pp ds bnds).num_of_variables_ = 3 * bnds.length
    ∧ (pre.construct d0 d0p d0pp ds bnds).delta_s_ = ds
    ∧ (pre.construct d0 d0p d0pp ds bnds).d_bounds_ = bnds
    ∧ (pre.construct d0 d0p d0pp ds bnds).w_d_ = 1
    ∧ (pre.construct d0 d0p d0pp ds bnds).w_d_prime_ = 1
    ∧ (pre.construct d0 d0p d0pp ds bnds).w_d_pprime_ = 1
    ∧ (pre.construct d0 d0p d0pp ds bnds).w_d_obs_ = 1
    ∧ (pre.construct d0 d0p d0pp ds bnds).get_nlp_info
        = (bnds.length * 3, bnds.length * 3, bnds.length * 3) :=
  ⟨rfl, rfl, rfl, rfl, rfl, rfl, rfl, rfl, rfl⟩

/-- C5 counterexample: with terminal status `Infeasible` (not `Converged`),
`finalize_solution` still populates the result trajectory: on the `N = 2`
instance it appends one segment, so the segment list is not left empty.  The
source, lines 401 to 412, never inspects `status`. -/
theorem C5_counterexample :
    st2.opt_piecewise_trajectory_.segments.length = 0
    ∧ ((st2.finalize_solution SolverReturn.Infeasible
          xC2).opt_piecewise_trajectory_.segments).length = 1
    ∧ (1 : ℕ) ≠ 0 := by
  refine ⟨rfl, ?_, by norm_num⟩
  simp [st2, pre0, LateralTrajectoryOptimizer.construct,
    LateralTrajectoryOptimizer.finalize_solution,
    PiecewiseJerkTrajectory1d.AppendSegment, List.range_succ]

/-- C5 amended: this component performs no status gating.  `finalize_solution`
produces the same state for every terminal status, always appends exactly
`N - 1` segments to the accumulated trajectory, and `GetOptimalTrajectory`
returns the accumulated trajectory unconditionally. -/
theorem C5_amended (st : LateralTrajectoryOptimizer) (s1 s2 : SolverReturn)
    (x : ℕ → ℚ) :
    st.finalize_solution s1 x = st.finalize_solution s2 x
    ∧ ((st.finalize_solution s1 x).opt_piecewise_trajectory_.segments).length
        = st.opt_piecewise_trajectory_.segments.length
          + (st.num_of_points_ - 1)
    ∧ (st.finalize_solution s1 x).GetOptimalTrajectory
        = (st.finalize_solution s1 x).opt_piecewise_trajectory_ := by
  refine ⟨rfl, ?_, rfl⟩
  simp [LateralTrajectoryOptimizer.finalize_solution,
    length_foldl_AppendSegment, List.length_range]

/-- C9: `get_bounds_info` fills the variable bounds from the corridor for the
`d` block and with the literal sentinels `-10` and `+10` for the `d_prime` and
`d_pprime` blocks, and fills the constraint bounds with the symmetric box
`d_ppprime_max_ * delta_s_` on the `N - 1` curvature-rate rows and with
`lower = upper = 0` on every remaining row. -/
theorem C9_bounds (st : LateralTrajectoryOptimizer) (i : ℕ)
    (hi : i < 3 * st.num_of_points_) :
    (i < st.num_of_points_ →
        st.x_lower i = (st.d_bounds_.getD i (0, 0)).1
        ∧ st.x_upper i = (st.d_bounds_.getD i (0, 0)).2)
    ∧ (st.num_of_points_ ≤ i → st.x_lower i = -10 ∧ st.x_upper i = 10)
    ∧ (i < st.num_of_points_ - 1 →
        st.g_lower i = -(st.d_ppprime_max_ * st.delta_s_)
        ∧ st.g_upper i = st.d_ppprime_max_ * st.delta_s_)
    ∧ (st.num_of_points_ - 1 ≤ i →
        st.g_lower i = 0 ∧ st.g_upper i = 0) := by
  refine ⟨fun h => ?_, fun h => ?_, fun h => ?_, fun h => ?_⟩
  · constructor
    · rw [LateralTrajectoryOptimizer.x_lower, if_pos h]
    · rw [LateralTrajectoryOptimizer.x_upper, if_pos h]
  · constructor
    · rw [LateralTrajectoryOptimizer.x_lower, if_neg (by omega)]
    · rw [LateralTrajectoryOptimizer.x_upper, if_neg (by omega)]
  · constructor
    · rw [LateralTrajectoryOptimizer.g_lower, if_pos h]
    · rw [LateralTrajectoryOptimizer.g_upper, if_pos h]
  · constructor
    · rw [LateralTrajectoryOptimizer.g_lower, if_neg (by omega)]
    · rw [LateralTrajectoryOptimizer.g_upper, if_neg (by omega)]

/-- C9 witness: the bounds theorem instantiated on the concrete `N = 2`
instance at index `0`. -/
theorem C9_bounds_witness :
    0 < 3 * st2.num_of_points_
    ∧ ((0 < st2.num_of_points_ →
          st2.x_lower 0 = (st2.d_bounds_.getD 0 (0, 0)).1
          ∧ st2.x_upper 0 = (st2.d_bounds_.getD 0 (0, 0)).2)
      ∧ (st2.num_of_points_ ≤ 0 → st2.x_lower 0 = -10 ∧ st2.x_upper 0 = 10)
      ∧ (0 < st2.num_of_points_ - 1 →
          st2.g_lower 0 = -(st2.d_ppprime_max_ * st2.delta_s_)
          ∧ st2.g_upper 0 = st2.d_ppprime_max_ * st2.delta_s_)
      ∧ (st2.num_of_points_ - 1 ≤ 0 →
          st2.g_lower 0 = 0 ∧ st2.g_upper 0 = 0)) :=
  ⟨by simp [st2, pre0, LateralTrajectoryOptimizer.construct],
   C9_bounds st2 0 (by simp [st2, pre0, LateralTrajectoryOptimizer.construct])⟩

/-- C3 counterexample: at `obj_factor = 2` on the `N = 2` instance the value
phase of `eval_h` returns the constants `4, 4, 2, 2, 2, 2`, not the claimed
`4 obj_factor, ..., 2 obj_factor = 8, 8, 4, 4, 4, 4`: the source, lines 389 to
397, never multiplies by `obj_factor`. -/
theorem C3_counterexample :
    st2.eval_h_values (fun _ => 0) 2 (fun _ => 0) = [4, 4, 2, 2, 2, 2]
    ∧ ([4, 4, 2, 2, 2, 2] : List ℚ)
        ≠ [4 * 2, 4 * 2, 2 * 2, 2 * 2, 2 * 2, 2 * 2] := by
  constructor
  · show (List.range (3 * st2.num_of_points_)).map _ = _
    simp [st2, pre0, LateralTrajectoryOptimizer.construct,
      LateralTrajectoryOptimizer.eval_h_values, List.range_succ]
  · intro h
    have := List.head_eq_of_cons_eq h
    norm_num at this

/-- C3 amended: for every `x`, `obj_factor` and multiplier vector, the
Lagrangian Hessian returned by `eval_h` is diagonal with exactly `3 N` entries
at positions `(i, i)`, and its values are the constants `4.0` on the `d` block
and `2.0` on the `d_prime` and `d_pprime` blocks, independent of `x`,
`obj_factor` and the multipliers (the source hard-codes unit weights and omits
the `obj_factor` scaling). -/
theorem C3_amended (st : LateralTrajectoryOptimizer) (x : ℕ → ℚ)
    (obj_factor : ℚ) (lam : ℕ → ℚ) (i : ℕ)
    (hi : i < 3 * st.num_of_points_) :
    (st.eval_h_structure).length = 3 * st.num_of_points_
    ∧ (st.eval_h_values x obj_factor lam).length = 3 * st.num_of_points_
    ∧ (st.eval_h_structure).getD i (0, 0) = (i, i)
    ∧ (st.eval_h_values x obj_factor lam).getD i 0
        = if i < st.num_of_points_ then 4 else 2 := by
  refine ⟨?_, ?_, ?_, ?_⟩ <;>
    simp [LateralTrajectoryOptimizer.eval_h_structure,
      LateralTrajectoryOptimizer.eval_h_values,
      List.getD_eq_getElem?_getD, List.getElem?_map, List.getElem?_range, hi]

/-- C3 amended witness: the amended Hessian theorem instantiated on the
concrete `N = 2` instance at `obj_factor = 2`, index `1`. -/
theorem C3_amended_witness :
    1 < 3 * st2.num_of_points_
    ∧ ((st2.eval_h_structure).length = 3 * st2.num_of_points_
      ∧ (st2.eval_h_values xw 2 xw).length = 3 * st2.num_of_points_
      ∧ (st2.eval_h_structure).getD 1 (0, 0) = (1, 1)
      ∧ (st2.eval_h_values xw 2 xw).getD 1 0
          = if 1 < st2.num_of_points_ then 4 else 2) :=
  ⟨by simp [st2, pre0, LateralTrajectoryOptimizer.construct],
   C3_amended st2 xw 2 xw 1
     (by simp [st2, pre0, LateralTrajectoryOptimizer.construct])⟩

/-- C10: the constructor, source lines 31 to 50, never assigns the members
`d_init_`, `d_prime_init_` and `d_pprime_init_` from its arguments, so
`get_starting_point` does not write the initial state supplied at
construction.  On `st2`, constructed with initial state `(1, 2, 3)` while the
pre-constructor member values are `0`, the starting point has
`x[0] = x[N] = x[2N] = 0` instead of the claimed `1, 2, 3`.  The bug is a
contradiction inside the component itself: the same constructor call seeds the
result trajectory with the supplied `(1, 2, 3)`, while the initial-state
equality rows of `eval_g` and the starting point both use the never-assigned
members. -/
theorem C10_starting_point_bug :
    st2 = pre0.construct 1 2 3 1 [(-1, 1), (0, 2)]
    ∧ st2.opt_piecewise_trajectory_.d_init = 1
    ∧ st2.opt_piecewise_trajectory_.d_prime_init = 2
    ∧ st2.opt_piecewise_trajectory_.d_pprime_init = 3
    ∧ st2.get_starting_point 0 = 0
    ∧ st2.get_starting_point 2 = 0
    ∧ st2.get_starting_point 4 = 0
    ∧ (0 : ℚ) ≠ 1 ∧ (0 : ℚ) ≠ 2 ∧ (0 : ℚ) ≠ 3 := by
  refine ⟨rfl, rfl, rfl, rfl, ?_, ?_, ?_, by norm_num, by norm_num, by norm_num⟩ <;>
    simp [st2, pre0, LateralTrajectoryOptimizer.construct,
      LateralTrajectoryOptimizer.get_starting_point]

/-- C8: with the default unit weights the objective is the sum, over stations,
of `d^2 + d_prime^2 + d_pprime^2 + (d - mid)^2` with `mid` the corridor
midpoint; hence it is nonnegative everywhere, and it vanishes only when every
`d_i` equals its corridor midpoint and every `d_prime_i` and `d_pprime_i` is
zero. -/
theorem C8_objective (st : LateralTrajectoryOptimizer) (x : ℕ → ℚ)
    (hw1 : st.w_d_ = 1) (hw2 : st.w_d_prime_ = 1) (hw3 : st.w_d_pprime_ = 1)
    (hw4 : st.w_d_obs_ = 1) :
    st.eval_f x = ∑ i ∈ Finset.range st.num_of_points_,
        (x i ^ 2 + x (st.num_of_points_ + i) ^ 2
          + x (2 * st.num_of_points_ + i) ^ 2 + (x i - st.obs_center i) ^ 2)
    ∧ 0 ≤ st.eval_f x
    ∧ (st.eval_f x = 0 → ∀ i, i < st.num_of_points_ →
        x i = st.obs_center i ∧ x (st.num_of_points_ + i) = 0
        ∧ x (2 * st.num_of_points_ + i) = 0) := by
  have hf : st.eval_f x = ∑ i ∈ Finset.range st.num_of_points_,
      (x i ^ 2 + x (st.num_of_points_ + i) ^ 2
        + x (2 * st.num_of_points_ + i) ^ 2 + (x i - st.obs_center i) ^ 2) := by
    simp [LateralTrajectoryOptimizer.eval_f, hw1, hw2, hw3, hw4]
  have hterm : ∀ j ∈ Finset.range st.num_of_points_,
      (0 : ℚ) ≤ x j ^ 2 + x (st.num_of_points_ + j) ^ 2
        + x (2 * st.num_of_points_ + j) ^ 2 + (x j - st.obs_center j) ^ 2 := by
    intro j _
    positivity
  refine ⟨hf, ?_, ?_⟩
  · rw [hf]
    exact Finset.sum_nonneg hterm
  · intro h0 i hi
    rw [hf] at h0
    have hz := (Finset.sum_eq_zero_iff_of_nonneg hterm).mp h0 i
      (Finset.mem_range.mpr hi)
    have s1 := sq_nonneg (x i)
    have s2 := sq_nonneg (x (st.num_of_points_ + i))
    have s3 := sq_nonneg (x (2 * st.num_of_points_ + i))
    have s4 := sq_nonneg (x i - st.obs_center i)
    refine ⟨?_, ?_, ?_⟩
    · have e4 : (x i - st.obs_center i) ^ 2 = 0 := by linarith
      exact sub_eq_zero.mp (sq_eq_zero_iff.mp e4)
    · have e2 : x (st.num_of_points_ + i) ^ 2 = 0 := by linarith
      exact sq_eq_zero_iff.mp e2
    · have e3 : x (2 * st.num_of_points_ + i) ^ 2 = 0 := by linarith
      exact sq_eq_zero_iff.mp e3

/-- C8 witness: the objective theorem instantiated on the concrete `N = 2`
instance (whose constructor set all four weights to one) at `x_k = k`. -/
theorem C8_objective_witness :
    st2.w_d_ = 1 ∧ st2.w_d_prime_ = 1 ∧ st2.w_d_pprime_ = 1 ∧ st2.w_d_obs_ = 1
    ∧ (st2.eval_f xw = ∑ i ∈ Finset.range st2.num_of_points_,
          (xw i ^ 2 + xw (st2.num_of_points_ + i) ^ 2
            + xw (2 * st2.num_of_points_ + i) ^ 2
            + (xw i - st2.obs_center i) ^ 2)
      ∧ 0 ≤ st2.eval_f xw
      ∧ (st2.eval_f xw = 0 → ∀ i, i < st2.num_of_points_ →
          xw i = st2.obs_center i ∧ xw (st2.num_of_points_ + i) = 0
          ∧ xw (2 * st2.num_of_points_ + i) = 0)) :=
  ⟨rfl, rfl, rfl, rfl, C8_objective st2 xw rfl rfl rfl rfl⟩

/-- C6: for every station pair the continuity residuals that `eval_g` computes
by direct simulation (building a `ConstantJerkTrajectory1d` with the implied
jerk `(a1 - a0) / delta_s` and reading its end state) equal the affine closed
forms: the velocity row equals `(v0 - v1) + (1/2) delta_s (a0 + a1)` and the
position row equals `(p0 - p1) + v0 delta_s + delta_s^2 (a0/3 + a1/6)`. -/
theorem C6_continuity (st : LateralTrajectoryOptimizer) (x : ℕ → ℚ) (i : ℕ)
    (hi : i + 1 < st.num_of_points_) (hds : 0 < st.delta_s_) :
    st.eval_g x (st.num_of_points_ - 1 + i)
      = (x (st.num_of_points_ + i) - x (st.num_of_points_ + i + 1))
        + (1 / 2) * st.delta_s_
          * (x (2 * st.num_of_points_ + i) + x (2 * st.num_of_points_ + i + 1))
    ∧ st.eval_g x (2 * (st.num_of_points_ - 1) + i)
      = (x i - x (i + 1)) + x (st.num_of_points_ + i) * st.delta_s_
        + st.delta_s_ ^ 2
          * (x (2 * st.num_of_points_ + i) / 3
            + x (2 * st.num_of_points_ + i + 1) / 6) := by
  have hds0 : st.delta_s_ ≠ 0 := ne_of_gt hds
  have h1 : ¬ (st.num_of_points_ - 1 + i < st.num_of_points_ - 1) := by omega
  have h2 : st.num_of_points_ - 1 + i < 2 * (st.num_of_points_ - 1) := by omega
  have e1 : st.num_of_points_ - 1 + i - (st.num_of_points_ - 1) = i := by omega
  have h3 : ¬ (2 * (st.num_of_points_ - 1) + i < st.num_of_points_ - 1) := by
    omega
  have h4 : ¬ (2 * (st.num_of_points_ - 1) + i
      < 2 * (st.num_of_points_ - 1)) := by omega
  have h5 : 2 * (st.num_of_points_ - 1) + i < 3 * (st.num_of_points_ - 1) := by
    omega
  have e2 : 2 * (st.num_of_points_ - 1) + i - 2 * (st.num_of_points_ - 1)
      = i := by omega
  constructor
  · simp only [LateralTrajectoryOptimizer.eval_g, if_neg h1, if_pos h2, e1,
      ConstantJerkTrajectory1d.end_velocity]
    field_simp
    ring
  · simp only [LateralTrajectoryOptimizer.eval_g, if_neg h3, if_neg h4,
      if_pos h5, e2, ConstantJerkTrajectory1d.end_position]
    field_simp
    ring

/-- C6 witness: the continuity theorem instantiated on the concrete `N = 2`
instance at the pair `i = 0` with `x_k = k`. -/
theorem C6_continuity_witness :
    0 + 1 < st2.num_of_points_ ∧ 0 < st2.delta_s_
    ∧ (st2.eval_g xw (st2.num_of_points_ - 1 + 0)
        = (xw (st2.num_of_points_ + 0) - xw (st2.num_of_points_ + 0 + 1))
          + (1 / 2) * st2.delta_s_
            * (xw (2 * st2.num_of_points_ + 0)
              + xw (2 * st2.num_of_points_ + 0 + 1))
      ∧ st2.eval_g xw (2 * (st2.num_of_points_ - 1) + 0)
        = (xw 0 - xw (0 + 1)) + xw (st2.num_of_points_ + 0) * st2.delta_s_
          + st2.delta_s_ ^ 2
            * (xw (2 * st2.num_of_points_ + 0) / 3
              + xw (2 * st2.num_of_points_ + 0 + 1) / 6)) :=
  ⟨by norm_num [st2, pre0, LateralTrajectoryOptimizer.construct],
   by norm_num [st2, pre0, LateralTrajectoryOptimizer.construct],
   C6_continuity st2 xw 0
     (by norm_num [st2, pre0, LateralTrajectoryOptimizer.construct])
     (by norm_num [st2, pre0, LateralTrajectoryOptimizer.construct])⟩

/-- C1: the value phase of `eval_jac_g` is not the derivative of the residuals
of `eval_g`.  On the `N = 2` instance the first stored entry is at row `0`,
column `4` (the `d_pprime_0` column) with value `+1`, while the row-`0`
residual of `eval_g` is `d_pprime_1 - d_pprime_0`, whose exact partial
derivative in the column-`4` direction (a finite difference, exact because the
residual is affine) is `-1`: block 1 of the stored Jacobian is the negation of
the derivative.  In addition, the source (lines 296 to 308) never increments
`constraint_index` between the three trailing initial-state entries, so all
three land on row `3 = 3(N - 1)` and rows `4` and `5` get no entries at all,
while `eval_g` puts the `d_prime` and `d_pprime` initial-state residuals on
rows `4` and `5`. -/
theorem C1_jacobian_mismatch :
    (st2.jac_structure).getD 0 (0, 0) = (0, 4)
    ∧ (st2.jac_values fun _ => 0).getD 0 0 = 1
    ∧ st2.residualDiff (fun _ => 0) 0 4 = -1
    ∧ (1 : ℚ) ≠ -1
    ∧ (st2.jac_structure).getD 11 (0, 0) = (3, 0)
    ∧ (st2.jac_structure).getD 12 (0, 0) = (3, 2)
    ∧ (st2.jac_structure).getD 13 (0, 0) = (3, 4) := by
  refine ⟨?_, ?_, ?_, by norm_num, ?_, ?_, ?_⟩
  · simp [st2, pre0, LateralTrajectoryOptimizer.construct,
      LateralTrajectoryOptimizer.jac_structure, List.range_succ]
  · simp [st2, pre0, LateralTrajectoryOptimizer.construct,
      LateralTrajectoryOptimizer.jac_values, List.range_succ]
  · norm_num [st2, pre0, LateralTrajectoryOptimizer.construct,
      LateralTrajectoryOptimizer.residualDiff,
      LateralTrajectoryOptimizer.eval_g, Function.update]
  · simp [st2, pre0, LateralTrajectoryOptimizer.construct,
      LateralTrajectoryOptimizer.jac_structure, List.range_succ]
  · simp [st2, pre0, LateralTrajectoryOptimizer.construct,
      LateralTrajectoryOptimizer.jac_structure, List.range_succ]
  · simp [st2, pre0, LateralTrajectoryOptimizer.construct,
      LateralTrajectoryOptimizer.jac_structure, List.range_succ]

/-- C2: `finalize_solution` (source lines 401 to 412) never advances `offset`
inside its loop, so every appended segment reuses `x[2N]` and `x[2N - 1]`; the
latter is the last `d_prime` sample, not a `d_pprime` sample.  On the `N = 2`
instance with terminal vector `(0, 0, 0, 3, 5, 9)` the single appended segment
carries jerk `(x[4] - x[3]) / delta_s = 2`, while the claim requires the
pair-0 jerk `(x[5] - x[4]) / delta_s = 4`. -/
theorem C2_finalize_bug :
    (st2.finalize_solution SolverReturn.Converged
        xC2).opt_piecewise_trajectory_.segments = [(2, 1)]
    ∧ (xC2 (2 * st2.num_of_points_ + 1) - xC2 (2 * st2.num_of_points_))
        / st2.delta_s_ = 4
    ∧ ((2 : ℚ), (1 : ℚ)) ≠ ((4 : ℚ), (1 : ℚ)) := by
  refine ⟨?_, ?_, ?_⟩
  · norm_num [st2, pre0, LateralTrajectoryOptimizer.construct,
      LateralTrajectoryOptimizer.finalize_solution,
      PiecewiseJerkTrajectory1d.AppendSegment, xC2, List.range_succ]
  · norm_num [st2, pre0, LateralTrajectoryOptimizer.construct, xC2]
  · intro h
    have := congrArg Prod.fst h
    norm_num at this
